import Mathlib

/-!
Verification development for the puhui2 service.

The definitions below shallowly embed the server routes of `server.js`
(token ledger, usage logs, image/artifact storage, chat sessions) and the
client-side generation pipeline of `src/App.tsx`.  The database is modelled
per-account: `ServerState.tokens` is the `users.tokens` column of the
authenticated account, the lists are the rows of the corresponding tables.
-/

namespace Puhui

/-- A row of the `usage_logs` table (`user_id`, `feature_name`, `token_count`,
`created_at`).  `token_count` is stored exactly as the server writes it:
a positive magnitude for charges, and the positive difference for
admin top-ups. -/
structure UsageLog where
  user_id : Nat
  feature_name : String
  token_count : Int
  created_at : Nat
deriving DecidableEq

/-- A row of the `images` table (metadata columns relevant to the claims:
`id`, `user_id`, `prompt`, `r2_key`, `created_at`). -/
structure ImageRow where
  id : String
  user_id : Nat
  prompt : String
  r2_key : String
  created_at : Nat
deriving DecidableEq

/-- A row of the `chat_sessions` table. -/
structure ChatSession where
  id : String
  user_id : Nat
  title : String
  created_at : Nat
  updated_at : Nat
deriving DecidableEq

/-- A row of the `chat_messages` table.  `id` is `AUTO_INCREMENT`; the model
uses the current row count plus one. -/
structure ChatMessage where
  id : Nat
  session_id : String
  role : String
  content : String
  created_at : Nat
deriving DecidableEq

/-- The durable state the claims are about: the authenticated account's
`tokens` balance plus the rows of the `usage_logs`, `images`,
`chat_sessions` and `chat_messages` tables. -/
structure ServerState where
  tokens : Int
  usage_logs : List UsageLog
  images : List ImageRow
  chat_sessions : List ChatSession
  chat_messages : List ChatMessage
deriving DecidableEq

/-- JavaScript `x || 0` on an optional numeric field: an absent field and a
zero both coerce to `0`; any other number is kept. -/
def jsOrZero : Option Int → Int
  | none => 0
  | some v => if v = 0 then 0 else v

@[simp] theorem jsOrZero_some (v : Int) : jsOrZero (some v) = v := by
  simp only [jsOrZero]
  split <;> simp_all

@[simp] theorem jsOrZero_none : jsOrZero none = 0 := rfl

/-- The literal `feature_name` the server writes for an admin balance
top-up (`'管理員手動充值'`, which the design document renders as the
"administrative adjustment" label). -/
def adminAdjustLabel : String := "管理員手動充值"

/-- `POST /api/usage` (server.js, real-database path).  Inside one
transaction the server (1) inserts a `usage_logs` row with
`token_count = tokenCount || 0`, (2) runs
`UPDATE users SET tokens = tokens - (tokenCount || 0)`, (3) reads back the
balance, then commits and answers `{ success, remainingTokens }`.  Each
query and the commit may fail (`insertOk`/`updateOk`/`selectOk`/`commitOk`);
any failure triggers `connection.rollback()`, leaving the durable state
unchanged and answering a 500 (modelled as `none`). -/
def postUsageTx (st : ServerState) (uid : Nat) (feature : String)
    (tokenCount : Option Int) (now : Nat)
    (insertOk updateOk selectOk commitOk : Bool) : ServerState × Option Int :=
  if insertOk then
    let st1 := { st with
      usage_logs := st.usage_logs ++ [(⟨uid, feature, jsOrZero tokenCount, now⟩ : UsageLog)] }
    if updateOk then
      let st2 := { st1 with tokens := st1.tokens - jsOrZero tokenCount }
      if selectOk then
        if commitOk then (st2, some st2.tokens) else (st, none)
      else (st, none)
    else (st, none)
  else (st, none)

/-- `POST /api/usage` with every query succeeding. -/
def postUsage (st : ServerState) (uid : Nat) (feature : String)
    (tokenCount : Option Int) (now : Nat) : ServerState × Option Int :=
  postUsageTx st uid feature tokenCount now true true true true

/-- `PUT /api/admin/users/:id` (server.js), restricted to the columns the
claims concern.  Inside one transaction the server (1) reads the current
`tokens` of the target row (`selectOk` is false when the query fails or the
row is missing, in which case `rows[0].tokens` throws), (2) computes
`tokenChange = tokens - currentTokens`, (3) updates the row setting
`tokens` to the requested absolute value, (4) only if `tokenChange > 0`
inserts a `usage_logs` row labelled `adminAdjustLabel` carrying that
positive difference, then commits.  Any failure rolls the transaction
back, leaving the durable state unchanged (the route answers 500,
modelled as `false`). -/
def putAdminUserTx (st : ServerState) (uid : Nat) (tokens_new : Int) (now : Nat)
    (selectOk updateOk insertOk commitOk : Bool) : ServerState × Bool :=
  if selectOk then
    let currentTokens := st.tokens
    let tokenChange := tokens_new - currentTokens
    if updateOk then
      let st1 := { st with tokens := tokens_new }
      if tokenChange > 0 then
        if insertOk then
          let st2 := { st1 with
            usage_logs := st1.usage_logs ++ [(⟨uid, adminAdjustLabel, tokenChange, now⟩ : UsageLog)] }
          if commitOk then (st2, true) else (st, false)
        else (st, false)
      else
        if commitOk then (st1, true) else (st, false)
    else (st, false)
  else (st, false)

/-- `PUT /api/admin/users/:id` with every query succeeding. -/
def putAdminUser (st : ServerState) (uid : Nat) (tokens_new : Int) (now : Nat) :
    ServerState × Bool :=
  putAdminUserTx st uid tokens_new now true true true true

/-- The signed delta a `usage_logs` row denotes in the design document's
UsageRecord abstraction: the stored `token_count` is a positive magnitude,
read as a credit for admin top-up rows and as a debit (negated) for every
other feature row. -/
def specDelta (l : UsageLog) : Int :=
  if l.feature_name = adminAdjustLabel then l.token_count else -l.token_count

/-- Sum of the signed deltas of a usage history. -/
def deltaSum (ls : List UsageLog) : Int := (ls.map specDelta).sum

theorem deltaSum_append (ls : List UsageLog) (l : UsageLog) :
    deltaSum (ls ++ [l]) = deltaSum ls + specDelta l := by
  simp [deltaSum]

/-- C2: for any amount ≥ 0 the charge path appends exactly one usage row
whose abstract delta is `-amount`, decrements the balance by `amount`, and
answers the post-charge balance; it succeeds for every balance, so the
result may be negative — there is no insufficient-funds check. -/
theorem charge_contract (st : ServerState) (uid : Nat) (f : String)
    (amount : Int) (now : Nat) (hamt : 0 ≤ amount) (hf : f ≠ adminAdjustLabel) :
    postUsage st uid f (some amount) now
      = ({ st with usage_logs := st.usage_logs ++ [⟨uid, f, amount, now⟩],
                   tokens := st.tokens - amount }, some (st.tokens - amount))
    ∧ specDelta ⟨uid, f, amount, now⟩ = -amount := by
  constructor
  · simp [postUsage, postUsageTx]
  · simp [specDelta, hf]

/-- Witness for the charge contract: scenario A of the design document,
balance 1000 charged 150 yields balance 850 and one usage row. -/
theorem charge_contract_witness :
    postUsage ⟨1000, [], [], [], []⟩ 1 "engine" (some 150) 7
      = (⟨850, [⟨1, "engine", 150, 7⟩], [], [], []⟩, some 850)
    ∧ specDelta ⟨1, "engine", 150, 7⟩ = -150 :=
  charge_contract ⟨1000, [], [], [], []⟩ 1 "engine" 150 7
    (by decide) (by decide)

/-- C3: the administrative update sets the balance to exactly the requested
value; when the difference to the previous balance is positive it appends
one usage row carrying the admin-adjustment label and that difference, and
when the difference is not positive it appends nothing. -/
theorem admin_adjust_contract (st : ServerState) (uid : Nat)
    (tokens_new : Int) (now : Nat) :
    (putAdminUser st uid tokens_new now).1.tokens = tokens_new
    ∧ (putAdminUser st uid tokens_new now).1.usage_logs
        = (if tokens_new - st.tokens > 0 then
             st.usage_logs ++ [⟨uid, adminAdjustLabel, tokens_new - st.tokens, now⟩]
           else st.usage_logs)
    ∧ (putAdminUser st uid tokens_new now).2 = true := by
  simp only [putAdminUser, putAdminUserTx, if_true]
  split <;> simp

/-- C4: both ledger operations are all-or-nothing.  Whatever subset of the
transaction's queries fails, the charge route either leaves the state
exactly as it was (answering an error) or applies both the usage-row
insertion and the balance decrement; likewise the admin update either
leaves the state unchanged or applies the full success-path result. -/
theorem ledger_ops_atomic (st : ServerState) (uid : Nat) (f : String)
    (tc : Option Int) (tokens_new : Int) (now : Nat)
    (i u s c i' u' s' c' : Bool) :
    (postUsageTx st uid f tc now i u s c = (st, none)
      ∨ postUsageTx st uid f tc now i u s c
          = ({ st with usage_logs := st.usage_logs ++ [⟨uid, f, jsOrZero tc, now⟩],
                       tokens := st.tokens - jsOrZero tc },
             some (st.tokens - jsOrZero tc)))
    ∧ (putAdminUserTx st uid tokens_new now i' u' s' c' = (st, false)
      ∨ putAdminUserTx st uid tokens_new now i' u' s' c'
          = putAdminUser st uid tokens_new now) := by
  constructor
  · cases i <;> cases u <;> cases s <;> cases c <;>
      simp [postUsageTx]
  · cases i' <;> cases u' <;> cases s' <;> cases c' <;>
      simp [putAdminUserTx, putAdminUser] <;> split <;> simp_all

/-- C10: the charged amount is exactly the client-supplied `tokenCount`,
with no server-side validation: any integer is debited as-is, a negative
value strictly increases the balance, and an absent value is treated as 0
while still appending a usage row. -/
theorem client_controlled_charge (st : ServerState) (uid : Nat) (f : String)
    (v : Int) (now : Nat) :
    (postUsage st uid f (some v) now).1.tokens = st.tokens - v
    ∧ (postUsage st uid f (some v) now).1.usage_logs
        = st.usage_logs ++ [⟨uid, f, v, now⟩]
    ∧ (postUsage st uid f (some v) now).2 = some (st.tokens - v)
    ∧ (v < 0 → st.tokens < (postUsage st uid f (some v) now).1.tokens)
    ∧ (postUsage st uid f none now).1.usage_logs
        = st.usage_logs ++ [⟨uid, f, 0, now⟩]
    ∧ (postUsage st uid f none now).1.tokens = st.tokens := by
  refine ⟨by simp [postUsage, postUsageTx], by simp [postUsage, postUsageTx],
    by simp [postUsage, postUsageTx], ?_, by simp [postUsage, postUsageTx],
    by simp [postUsage, postUsageTx]⟩
  intro hv
  simp only [postUsage, postUsageTx, if_true, jsOrZero_some]
  omega

/-- Witness for the client-controlled charge: a client-supplied `-50`
raises the balance from 100 to 150. -/
theorem client_controlled_charge_witness :
    (postUsage ⟨100, [], [], [], []⟩ 1 "engine" (some (-50)) 3).1.tokens
      = 100 - (-50)
    ∧ ((100 : Int) < (postUsage ⟨100, [], [], [], []⟩ 1 "engine" (some (-50)) 3).1.tokens) :=
  ⟨(client_controlled_charge ⟨100, [], [], [], []⟩ 1 "engine" (-50) 3).1,
   (client_controlled_charge ⟨100, [], [], [], []⟩ 1 "engine" (-50) 3).2.2.2.1
     (by decide)⟩

/-- One ledger operation against a fixed account: a client charge
(`POST /api/usage`) or an administrative absolute balance set
(`PUT /api/admin/users/:id`). -/
inductive LedgerOp where
  | charge (feature : String) (tokenCount : Option Int) (now : Nat)
  | adjust (tokens_new : Int) (now : Nat)
deriving DecidableEq

/-- Apply one ledger operation (success path) to the server state. -/
def applyOp (uid : Nat) (st : ServerState) : LedgerOp → ServerState
  | .charge f tc now => (postUsage st uid f tc now).1
  | .adjust t now => (putAdminUser st uid t now).1

/-- Apply a sequence of ledger operations in order. -/
def applyOps (uid : Nat) (st : ServerState) : List LedgerOp → ServerState
  | [] => st
  | op :: rest => applyOps uid (applyOp uid st op) rest

/-- A trace is conservative when no charge reuses the admin-adjustment
label (so its row keeps its debit reading) and no administrative set
lowers the balance it finds (the path the server does not log). -/
def conservativeOps (uid : Nat) (st : ServerState) : List LedgerOp → Bool
  | [] => true
  | op :: rest =>
    (match op with
     | .charge f _ _ => f != adminAdjustLabel
     | .adjust t _ => decide (st.tokens ≤ t))
    && conservativeOps uid (applyOp uid st op) rest

theorem applyOp_preserves_gap (uid : Nat) (st : ServerState) (op : LedgerOp)
    (h : (match op with
          | .charge f _ _ => f != adminAdjustLabel
          | .adjust t _ => decide (st.tokens ≤ t)) = true) :
    (applyOp uid st op).tokens - deltaSum (applyOp uid st op).usage_logs
      = st.tokens - deltaSum st.usage_logs := by
  cases op with
  | charge f tc now =>
    simp only [applyOp, postUsage, postUsageTx, if_true]
    rw [deltaSum_append]
    have hf : f ≠ adminAdjustLabel := by simpa using h
    simp [specDelta, hf]
    ring
  | adjust t now =>
    have ht : st.tokens ≤ t := by simpa using h
    simp only [applyOp, putAdminUser, putAdminUserTx, if_true]
    by_cases hpos : t - st.tokens > 0
    · simp only [hpos, if_true]
      rw [deltaSum_append]
      simp [specDelta]
      ring
    · have : t = st.tokens := by omega
      simp [hpos, this]

theorem applyOps_gap (uid : Nat) (ops : List LedgerOp) :
    ∀ st : ServerState, conservativeOps uid st ops = true →
      (applyOps uid st ops).tokens - deltaSum (applyOps uid st ops).usage_logs
        = st.tokens - deltaSum st.usage_logs := by
  induction ops with
  | nil => intro st _; rfl
  | cons op rest ih =>
    intro st h
    simp only [conservativeOps, Bool.and_eq_true] at h
    simp only [applyOps]
    rw [ih (applyOp uid st op) h.2, applyOp_preserves_gap uid st op h.1]

/-- C1 (counterexample): ledger conservation fails as stated.  One
administrative adjustment lowering the balance from the 500-token initial
grant to 100 appends no UsageRecord, so the final balance 100 differs
from initial grant plus delta sum (500 + 0). -/
theorem ledger_conservation_cex :
    ¬ ((applyOps 1 ⟨500, [], [], [], []⟩ [LedgerOp.adjust 100 0]).tokens
        = 500 + deltaSum (applyOps 1 ⟨500, [], [], [], []⟩
            [LedgerOp.adjust 100 0]).usage_logs) := by
  decide

/-- C1 (amended): starting from the initial grant with empty history,
after any sequence of charges and administrative adjustments in which no
charge uses the admin-adjustment label and no adjustment lowers the
balance, the current balance equals the initial grant plus the sum of the
signed UsageRecord deltas recorded for the account. -/
theorem ledger_conservation_nonlowering (uid : Nat) (grant : Int)
    (ops : List LedgerOp)
    (h : conservativeOps uid ⟨grant, [], [], [], []⟩ ops = true) :
    (applyOps uid ⟨grant, [], [], [], []⟩ ops).tokens
      = grant + deltaSum (applyOps uid ⟨grant, [], [], [], []⟩ ops).usage_logs := by
  have hgap := applyOps_gap uid ops ⟨grant, [], [], [], []⟩ h
  simp only [deltaSum, List.map_nil, List.sum_nil] at hgap ⊢
  omega

/-- Witness for the amended conservation: grant 500, a 150-token charge,
an admin raise to 2000, then a 70-token charge end at balance 1930, which
equals 500 plus the recorded deltas (-150 + 1650 - 70). -/
theorem ledger_conservation_nonlowering_witness :
    conservativeOps 1 ⟨500, [], [], [], []⟩
        [LedgerOp.charge "engine" (some 150) 1, LedgerOp.adjust 2000 2,
         LedgerOp.charge "engine" (some 70) 3] = true
    ∧ (applyOps 1 ⟨500, [], [], [], []⟩
        [LedgerOp.charge "engine" (some 150) 1, LedgerOp.adjust 2000 2,
         LedgerOp.charge "engine" (some 70) 3]).tokens
      = 500 + deltaSum (applyOps 1 ⟨500, [], [], [], []⟩
          [LedgerOp.charge "engine" (some 150) 1, LedgerOp.adjust 2000 2,
           LedgerOp.charge "engine" (some 70) 3]).usage_logs :=
  ⟨by decide,
   ledger_conservation_nonlowering 1 500
     [LedgerOp.charge "engine" (some 150) 1, LedgerOp.adjust 2000 2,
      LedgerOp.charge "engine" (some 70) 3] (by decide)⟩

/-- A presigned read URL as minted by `getSignedUrl(r2, command, { expiresIn })`:
the object key and the requested lifetime in seconds. -/
structure SignedUrl where
  key : String
  expires_in : Nat
deriving DecidableEq

/-- The `url`/`data` field the image routes answer with: either a presigned
URL or the raw data URI the server falls back to when the R2 upload fails. -/
inductive UrlRef where
  | signed (u : SignedUrl)
  | dataUri (data : String)
deriving DecidableEq

/-- Lifetime (seconds) of the URL minted by `POST /api/images` right after
storing a freshly generated artifact: `expiresIn: 604800` (7 days). -/
def freshUrlExpiresIn : Nat := 604800

/-- Lifetime (seconds) of the URLs minted by the history listing
`GET /api/images`: `expiresIn: 3600` (1 hour). -/
def historyUrlExpiresIn : Nat := 3600

/-- Pure derivation of a signed URL from a durable key and a lifetime. -/
def getSignedUrlM (key : String) (expiresIn : Nat) : SignedUrl := ⟨key, expiresIn⟩

/-- `POST /api/images` (server.js): store an artifact.  The key is
namespaced per account.  The R2 upload may fail (`r2Ok` false), in which
case the server keeps the raw data URI as the answered `url`; the
`images` row insert may fail (`insertOk` false), in which case the route
answers 500 (`none`) with the table unchanged.  On success the row is
inserted and a 7-day presigned URL for the fresh key is answered. -/
def postImages (st : ServerState) (uid : Nat) (id data prompt : String)
    (timestamp : Nat) (insertOk r2Ok : Bool) : ServerState × Option UrlRef :=
  let key := "users/" ++ toString uid ++ "/" ++ id ++ ".png"
  let url : UrlRef :=
    if r2Ok then .signed (getSignedUrlM key freshUrlExpiresIn) else .dataUri data
  if insertOk then
    ({ st with images := st.images ++ [(⟨id, uid, prompt, key, timestamp⟩ : ImageRow)] },
     some url)
  else (st, none)

/-- Character-list test that the pattern (first argument) begins the text
(second argument). -/
def beginsWithAux : List Char → List Char → Bool
  | [], _ => true
  | _ :: _, [] => false
  | p :: ps, c :: cs => p == c && beginsWithAux ps cs

/-- Boolean test that `pat` begins the string `s`; models the server's
`String.prototype.startsWith` on stored keys. -/
def strBeginsWith (s pat : String) : Bool := beginsWithAux pat.data s.data

/-- Insert `x` into a list sorted by `le`, keeping earlier elements first
on ties. -/
def insertSorted {α : Type} (le : α → α → Bool) (x : α) : List α → List α
  | [] => [x]
  | y :: ys => if le x y then x :: y :: ys else y :: insertSorted le x ys

/-- Insertion sort by the boolean relation `le` (`le a b` = `a` may come
before `b`), modelling the SQL `ORDER BY` clauses. -/
def sortedBy {α : Type} (le : α → α → Bool) : List α → List α
  | [] => []
  | x :: xs => insertSorted le x (sortedBy le xs)

/-- One entry of the history listing answered by `GET /api/images`. -/
structure HistEntry where
  id : String
  data : UrlRef
  prompt : String
  timestamp : Nat
deriving DecidableEq

/-- Page size of the history listing (`const limit = 50`). -/
def imagesPageLimit : Nat := 50

/-- `GET /api/images` (server.js): read-only history listing.  Filters the
account's rows (restricted to the last 7 days when `periodWeek`, in
milliseconds of epoch time), orders by `created_at` descending, paginates
when not week-scoped, and maps each row to an entry whose `data` is a
1-hour presigned URL re-derived from the stored key (keys already holding
a full URL are passed through). -/
def getImages (st : ServerState) (uid : Nat) (now : Nat) (page : Nat)
    (periodWeek : Bool) : ServerState × List HistEntry :=
  let mine := st.images.filter (fun r => r.user_id == uid)
  let inPeriod := if periodWeek then
      mine.filter (fun r => now - 604800000 ≤ r.created_at) else mine
  let ordered := sortedBy (fun a b => decide (b.created_at ≤ a.created_at)) inPeriod
  let paged := if periodWeek then ordered
      else (ordered.drop ((page - 1) * imagesPageLimit)).take imagesPageLimit
  (st, paged.map (fun r =>
    { id := r.id
      data := if strBeginsWith r.r2_key "http" then UrlRef.dataUri r.r2_key
              else UrlRef.signed (getSignedUrlM r.r2_key historyUrlExpiresIn)
      prompt := r.prompt
      timestamp := r.created_at }))

/-- Result of one external AI stage call as the client observes it: a
resolved response carrying the reported usage cost, or a thrown error. -/
inductive StageResult where
  | ok (usage : Nat)
  | error (msg : String)
deriving DecidableEq

/-- Environment of one `handleGenerate` invocation (src/App.tsx): the
result of the research stage, the result of the image-generation stage
(each a cost on success), and whether the artifact save succeeds. -/
structure GenEnv where
  researchRes : StageResult
  genRes : StageResult
  saveOk : Bool
deriving DecidableEq

/-- Which side effects an invocation of `handleGenerate` reached. -/
structure GenOutcome where
  genInvoked : Bool
  saveInvoked : Bool
  chargeInvoked : Bool
deriving DecidableEq

/-- The feature label the visualization pipeline charges under
(`'可視化引擎'`). -/
def featVisualEngine : String := "可視化引擎"

/-- `handleGenerate` (src/App.tsx): stage 1 `researchTopicForPrompt`,
stage 2 `generateInfographicImage`; a thrown stage lands in the catch
block with no further stage and no persistence.  On pipeline success the
client first awaits `saveUserImage` (server `POST /api/images`); only if
that resolves does it call `logUsage` (server `POST /api/usage`) with the
accumulated `totalTokens`.  A throwing save is caught with no charge. -/
def handleGenerate (env : GenEnv) (st : ServerState) (uid : Nat)
    (imgId imgData topic : String) (now : Nat) : ServerState × GenOutcome :=
  match env.researchRes with
  | .error _ => (st, ⟨false, false, false⟩)
  | .ok u1 =>
    match env.genRes with
    | .error _ => (st, ⟨true, false, false⟩)
    | .ok u2 =>
      let totalTokens : Int := (u1 : Int) + (u2 : Int)
      let saved := postImages st uid imgId imgData topic now env.saveOk true
      match saved.2 with
      | some _ =>
        ((postUsage saved.1 uid featVisualEngine (some totalTokens) now).1,
         ⟨true, true, true⟩)
      | none => (saved.1, ⟨true, true, false⟩)

/-- C5: the pipeline short-circuits.  If the research stage fails, the
generation stage is never invoked; if the generation stage fails, nothing
further runs; in both cases the server state is returned exactly as it
was — no UsageRecord is appended and no balance debit occurs, so the
partial cost already accrued is not charged. -/
theorem pipeline_short_circuit (env : GenEnv) (st : ServerState) (uid : Nat)
    (imgId imgData topic : String) (now : Nat) :
    (∀ e, env.researchRes = .error e →
       handleGenerate env st uid imgId imgData topic now
         = (st, ⟨false, false, false⟩))
    ∧ (∀ u1 e, env.researchRes = .ok u1 → env.genRes = .error e →
       handleGenerate env st uid imgId imgData topic now
         = (st, ⟨true, false, false⟩)) := by
  constructor
  · intro e he
    simp [handleGenerate, he]
  · intro u1 e h1 h2
    simp [handleGenerate, h1, h2]

/-- Witness for the short-circuit: scenario B of the design document —
stage 2 of 2 fails after stage 1 reported cost 40; the state (balance 200,
empty history) is unchanged and the charge step is never reached. -/
theorem pipeline_short_circuit_witness :
    handleGenerate ⟨StageResult.ok 40, StageResult.error "stage failure", true⟩
        ⟨200, [], [], [], []⟩ 1 "img" "data" "topic" 9
      = (⟨200, [], [], [], []⟩, ⟨true, false, false⟩) :=
  (pipeline_short_circuit ⟨StageResult.ok 40, StageResult.error "stage failure", true⟩
      ⟨200, [], [], [], []⟩ 1 "img" "data" "topic" 9).2 40 "stage failure" rfl rfl

/-- C6: the charge is issued only after the artifact row is stored.  If
the charge step of `handleGenerate` was reached then the save succeeded
and the artifact row is present in the final state, so a UsageRecord of
this flow never exists without its artifact; and if the save fails the
usage history and the balance are left untouched. -/
theorem charge_requires_artifact (env : GenEnv) (st : ServerState) (uid : Nat)
    (imgId imgData topic : String) (now : Nat) :
    ((handleGenerate env st uid imgId imgData topic now).2.chargeInvoked = true →
       env.saveOk = true
       ∧ (⟨imgId, uid, topic, "users/" ++ toString uid ++ "/" ++ imgId ++ ".png", now⟩ :
            ImageRow) ∈ (handleGenerate env st uid imgId imgData topic now).1.images)
    ∧ (env.saveOk = false →
       (handleGenerate env st uid imgId imgData topic now).1.usage_logs = st.usage_logs
       ∧ (handleGenerate env st uid imgId imgData topic now).1.tokens = st.tokens) := by
  obtain ⟨r, g, sv⟩ := env
  cases r <;> cases g <;> cases sv <;>
    simp [handleGenerate, postImages, postUsage, postUsageTx]

/-- Witness for charge-after-artifact: a successful two-stage run with a
successful save stores the artifact row that the issued charge refers to. -/
theorem charge_requires_artifact_witness :
    (⟨"img1", 1, "topic", "users/" ++ toString 1 ++ "/" ++ "img1" ++ ".png", 9⟩ : ImageRow)
      ∈ (handleGenerate ⟨StageResult.ok 3, StageResult.ok 4, true⟩
           ⟨100, [], [], [], []⟩ 1 "img1" "data" "topic" 9).1.images :=
  ((charge_requires_artifact ⟨StageResult.ok 3, StageResult.ok 4, true⟩
      ⟨100, [], [], [], []⟩ 1 "img1" "data" "topic" 9).1 (by decide)).2

/-- C8 (counterexample): the URL issued for a freshly generated artifact
is minted with a 604800-second (7-day) lifetime, not the 1 hour the claim
states. -/
theorem fresh_url_ttl_cex :
    (postImages ⟨0, [], [], [], []⟩ 1 "a" "d" "p" 0 true true).2
      = some (UrlRef.signed ⟨"users/1/a.png", freshUrlExpiresIn⟩)
    ∧ freshUrlExpiresIn ≠ 3600 := by
  decide

/-- C8 (amended): signed URLs are derived without mutating any state, and
the lifetimes are the reverse of the claim: 7 days (604800 s) for the URL
answered right after storing a fresh artifact, and 1 hour (3600 s) for
every signed URL produced by the history listing. -/
theorem signed_url_derivation (st : ServerState) (uid : Nat)
    (id data prompt : String) (ts now page : Nat) (periodWeek : Bool) :
    (getImages st uid now page periodWeek).1 = st
    ∧ (postImages st uid id data prompt ts true true).2
        = some (UrlRef.signed ⟨"users/" ++ toString uid ++ "/" ++ id ++ ".png",
            freshUrlExpiresIn⟩)
    ∧ freshUrlExpiresIn = 604800
    ∧ historyUrlExpiresIn = 3600
    ∧ (∀ e ∈ (getImages st uid now page periodWeek).2, ∀ u,
         e.data = UrlRef.signed u → u.expires_in = historyUrlExpiresIn) := by
  refine ⟨rfl, by simp [postImages, getSignedUrlM], rfl, rfl, ?_⟩
  intro e he u hu
  simp only [getImages, List.mem_map] at he
  obtain ⟨r, -, rfl⟩ := he
  cases hs : strBeginsWith r.r2_key "http" with
  | true => simp [hs] at hu
  | false =>
    simp only [hs, Bool.false_eq_true, if_false, getSignedUrlM] at hu
    cases hu
    rfl

/-- Witness for the signed-URL derivation: on a state holding one stored
artifact row, the listing leaves the state unchanged and its entry's URL
carries the 1-hour lifetime, while a fresh save answers a 7-day URL. -/
theorem signed_url_derivation_witness :
    (getImages ⟨0, [], [⟨"a", 1, "p", "users/1/a.png", 5⟩], [], []⟩ 1 99 1 false).1
      = ⟨0, [], [⟨"a", 1, "p", "users/1/a.png", 5⟩], [], []⟩
    ∧ (⟨"users/1/a.png", 3600⟩ : SignedUrl).expires_in = historyUrlExpiresIn
    ∧ (postImages ⟨0, [], [⟨"a", 1, "p", "users/1/a.png", 5⟩], [], []⟩ 1 "b" "d" "q" 7
         true true).2
        = some (UrlRef.signed ⟨"users/" ++ toString 1 ++ "/" ++ "b" ++ ".png",
            freshUrlExpiresIn⟩) :=
  ⟨(signed_url_derivation ⟨0, [], [⟨"a", 1, "p", "users/1/a.png", 5⟩], [], []⟩ 1
      "b" "d" "q" 7 99 1 false).1,
   (signed_url_derivation ⟨0, [], [⟨"a", 1, "p", "users/1/a.png", 5⟩], [], []⟩ 1
      "b" "d" "q" 7 99 1 false).2.2.2.2
     ⟨"a", UrlRef.signed ⟨"users/1/a.png", 3600⟩, "p", 5⟩ (by decide)
     ⟨"users/1/a.png", 3600⟩ (by decide),
   (signed_url_derivation ⟨0, [], [⟨"a", 1, "p", "users/1/a.png", 5⟩], [], []⟩ 1
      "b" "d" "q" 7 99 1 false).2.1⟩

/-- `GET /api/chat/messages/:sessionId` (server.js): looks up the owning
row of `chat_sessions`; when the session is missing or owned by a
different account the route answers 403 `'Access denied'`; otherwise it
answers the session's messages ordered by `created_at` ascending.  The
route only reads — the durable state is untouched either way. -/
def getChatMessages (st : ServerState) (uid : Nat) (sessionId : String) :
    Except String (List ChatMessage) :=
  match st.chat_sessions.find? (fun s => s.id == sessionId) with
  | none => .error "Access denied"
  | some s =>
    if s.user_id ≠ uid then .error "Access denied"
    else .ok (sortedBy (fun a b => decide (a.created_at ≤ b.created_at))
              (st.chat_messages.filter (fun m => m.session_id == sessionId)))

/-- `POST /api/chat/messages` (server.js): inserts the message row for the
request's `session_id` and bumps that session's `updated_at`.  The
authenticated `uid` is never compared against the session's owner — the
route performs no ownership check before writing. -/
def postChatMessage (st : ServerState) (uid : Nat)
    (session_id role content : String) (created_at : Nat) : ServerState :=
  { st with
    chat_messages := st.chat_messages ++
      [(⟨st.chat_messages.length + 1, session_id, role, content, created_at⟩ : ChatMessage)],
    chat_sessions := st.chat_sessions.map (fun s =>
      if s.id == session_id then { s with updated_at := created_at } else s) }

/-- C7 (counterexample): a write by a non-owner is not rejected.  Account 2
appends a message to session `"s1"` owned by account 1 and the session's
message list changes — the claim that any write attempt by a non-owner is
rejected and leaves the messages unchanged is false. -/
theorem chat_write_acl_cex :
    ¬ ((postChatMessage ⟨0, [], [], [⟨"s1", 1, "t", 0, 0⟩], []⟩
          2 "s1" "user" "hi" 10).chat_messages
        = (⟨0, [], [], [⟨"s1", 1, "t", 0, 0⟩], []⟩ : ServerState).chat_messages) := by
  decide

/-- C7 (amended): reads are guarded but writes are not.  Listing the
messages of a session the requester does not own (or of a missing
session) is rejected with the access-denied error, and the read mutates
nothing; but appending a message performs no ownership check — it inserts
the row for any authenticated account. -/
theorem chat_acl_enforcement (st : ServerState) (uid : Nat)
    (sid role content : String) (ts : Nat) :
    ((∀ s ∈ st.chat_sessions, s.id = sid → s.user_id ≠ uid) →
       getChatMessages st uid sid = .error "Access denied")
    ∧ (postChatMessage st uid sid role content ts).chat_messages
        = st.chat_messages ++
            [⟨st.chat_messages.length + 1, sid, role, content, ts⟩] := by
  constructor
  · intro hown
    unfold getChatMessages
    cases hfind : st.chat_sessions.find? (fun s => s.id == sid) with
    | none => rfl
    | some s =>
      have hmem : s ∈ st.chat_sessions := List.mem_of_find?_eq_some hfind
      have hid : s.id = sid := by
        have := List.find?_some hfind
        simpa using this
      simp [hown s hmem hid]
  · rfl

/-- Witness for the amended access control: on a state holding session
`"s1"` owned by account 1, a listing request from account 2 is answered
with the access-denied error, while account 2's append lands. -/
theorem chat_acl_enforcement_witness :
    getChatMessages ⟨0, [], [], [⟨"s1", 1, "t", 0, 0⟩], []⟩ 2 "s1"
      = .error "Access denied"
    ∧ (postChatMessage ⟨0, [], [], [⟨"s1", 1, "t", 0, 0⟩], []⟩
         2 "s1" "user" "hi" 10).chat_messages
        = [⟨1, "s1", "user", "hi", 10⟩] :=
  ⟨(chat_acl_enforcement ⟨0, [], [], [⟨"s1", 1, "t", 0, 0⟩], []⟩
      2 "s1" "user" "hi" 10).1 (by decide),
   (chat_acl_enforcement ⟨0, [], [], [⟨"s1", 1, "t", 0, 0⟩], []⟩
      2 "s1" "user" "hi" 10).2⟩

/-- Outcome of server start-up: the process is running, or it called
`process.exit(1)`. -/
inductive InitOutcome where
  | running
  | exited
deriving DecidableEq

/-- Initial value of the module-level `useMockDb` flag (`let useMockDb =
false`).  No statement in server.js ever assigns it, so the array-backed
mock-database branches are only reachable if it were true at start. -/
def useMockDbInit : Bool := false

/-- `initDb` (server.js): tries to connect to MySQL and run the schema
set-up (`connectOk` is true when every step succeeds).  On any failure it
logs `'FATAL: Database Connection Failed. The application cannot start.'`
and calls `process.exit(1)`.  It never touches `useMockDb`, whose value is
returned unchanged alongside the outcome. -/
def initDb (connectOk : Bool) (useMockDb : Bool) : InitOutcome × Bool :=
  if connectOk then (InitOutcome.running, useMockDb)
  else (InitOutcome.exited, useMockDb)

/-- C9 (counterexample): when the durable store is unreachable the service
does not fall back to the mock database and keep serving — start-up with a
failed connection neither leaves the process running nor sets the mock
flag. -/
theorem mock_fallback_cex :
    ¬ ((initDb false useMockDbInit).1 = InitOutcome.running
       ∧ (initDb false useMockDbInit).2 = true) := by
  decide

/-- C9 (amended): an unreachable durable store at start-up is treated as
process-fatal — `initDb` exits the process — and the in-process mock
database is never activated: `useMockDb` starts false and no code path of
start-up (or of the server at all) sets it. -/
theorem db_unreachable_fatal (b : Bool) :
    initDb false b = (InitOutcome.exited, b) ∧ useMockDbInit = false := by
  constructor
  · rfl
  · rfl

end Puhui
